import Mathlib

/-!
Shallow embedding of the OpenMW character physics layer
(apps/openmw/mwphysics/physicssystem.cpp), with theorems checking the
natural-language specification against the code.

Modelling conventions:
* osg::Vec3f becomes a record of three rationals.  Machine floats are
  modelled by exact rational arithmetic; the literals of the source
  (627.2, 0.01, 1/60, 30, ...) are carried over as exact rationals.
* Collision sweeps and ray tests go through the Bullet library, which is
  outside this repository; their results (fraction, end position, plane
  normal, hit filter group) are oracle inputs to the embedded functions,
  exactly the fields the source reads back from ActorTracer and from
  btCollisionWorld::ClosestRayResultCallback.
* getSlope(n) = acos(n . zhat) in degrees is compared against
  sMaxSlope = 49 only; since acos is strictly decreasing, the test
  getSlope(n) <= 49 is equivalent to n.z >= cos(49 degrees), so the
  embedding keeps a fixed rational stand-in for cos(49 degrees) and
  performs the comparison on n.z directly.
-/

namespace MWPhysics

/-- Rational stand-in for osg::Vec3f. -/
structure Vec3 where
  x : ℚ
  y : ℚ
  z : ℚ
deriving DecidableEq, Repr

namespace Vec3

def add (a b : Vec3) : Vec3 := ⟨a.x + b.x, a.y + b.y, a.z + b.z⟩

def sub (a b : Vec3) : Vec3 := ⟨a.x - b.x, a.y - b.y, a.z - b.z⟩

/-- Scalar multiplication, written postfix as in osg (vector * scalar). -/
def smul (a : Vec3) (c : ℚ) : Vec3 := ⟨a.x * c, a.y * c, a.z * c⟩

/-- Dot product (operator * on osg::Vec3f). -/
def dot (a b : Vec3) : ℚ := a.x * b.x + a.y * b.y + a.z * b.z

/-- Squared length (osg::Vec3f::length2). -/
def length2 (a : Vec3) : ℚ := dot a a

def zero : Vec3 := ⟨0, 0, 0⟩

instance : Add Vec3 := ⟨add⟩

instance : Sub Vec3 := ⟨sub⟩

end Vec3

/-- Quaternion record, standing in for btQuaternion where only the identity
value is ever inspected by the claims. -/
structure Quat where
  x : ℚ
  y : ℚ
  z : ℚ
  w : ℚ
deriving DecidableEq, Repr

/-- btQuaternion::getIdentity(). -/
def Quat.identity : Quat := ⟨0, 0, 0, 1⟩

/-- Rigid transform (btTransform): rotation plus origin. -/
structure Transform where
  rotation : Quat
  origin : Vec3
deriving DecidableEq, Repr

/-- Collision filter groups from collisiontype.hpp, as used in
physicssystem.cpp (CollisionType_World, _Actor, _HeightMap, _Projectile,
_Water). -/
inductive CollisionType where
  | world
  | actor
  | heightMap
  | projectile
  | water
deriving DecidableEq, Repr

/-- Result fields of an ActorTracer sweep (trace.h): fraction in [0,1]
with 1 meaning no hit, the end position, the hit plane normal, and the
collision filter group of the hit object (read through
mHitObject->getBroadphaseHandle()->m_collisionFilterGroup). -/
structure TraceResult where
  fraction : ℚ
  endPos : Vec3
  planeNormal : Vec3
  hitFilterGroup : CollisionType
deriving DecidableEq, Repr

/-- Result fields of btCollisionWorld::ClosestRayResultCallback as read by
MovementSolver::traceDown. -/
structure RayResult where
  hasHit : Bool
  hitPointWorld : Vec3
  hitNormalWorld : Vec3
deriving DecidableEq, Repr

/-- Constant sMaxSlope = 49.0f (degrees), physicssystem.cpp line 42. -/
def sMaxSlope : ℚ := 49

/-- Constant sStepSizeUp = 34.0f, line 43. -/
def sStepSizeUp : ℚ := 34

/-- Constant sStepSizeDown = 62.0f, line 44. -/
def sStepSizeDown : ℚ := 62

/-- Constant sMaxIterations = 8, line 47. -/
def sMaxIterations : Nat := 8

/-- Machine epsilon of float, std::numeric_limits<float>::epsilon() = 2^-23. -/
def floatEps : ℚ := 1 / 2 ^ 23

/-- Fixed rational approximation standing in for cos(49 degrees), the
threshold value against which a unit plane normal z component is compared.
getSlope(n) = acos(n . zhat) in degrees (line 53), and for a unit normal
getSlope(n) <= sMaxSlope holds exactly when cos(49 degrees) <= n.z. -/
def cosMaxSlope : ℚ := 6560590 / 10000000

/-- Decidable form of the test getSlope(n) <= sMaxSlope of the source, for a
unit plane normal n, rewritten through the monotone acos as
cosMaxSlope <= n.z. -/
def slopeLeMaxSlope (n : Vec3) : Bool := decide (cosMaxSlope ≤ n.z)

/-- Project a vector u on another vector v (physicssystem.cpp line 165):
v * (u * v) where the second * is a dot product. -/
def project (u v : Vec3) : Vec3 := v.smul (u.dot v)

/-- Helper for computing the character sliding (line 172):
direction - project(direction, planeNormal). -/
def slide (direction planeNormal : Vec3) : Vec3 :=
  direction - project direction planeNormal

/-- Reflection (line 177): velocity - (normal * (normal * velocity)) * 2. -/
def reflect (velocity normal : Vec3) : Vec3 :=
  velocity - (normal.smul (normal.dot velocity)).smul 2

/-- MovementSolver::stepMove (lines 58-161), with the three sweep results
(up by sStepSizeUp, forward by toMove, down by sStepSizeDown) supplied as
oracles.  Returns none on failure; on success returns the new position
(the down sweep end position) and the rescaled remaining time
(remainingTime * (1 - forward fraction)).  The caller variables position
and remainingTime are modified only on success, which the Option return
captures. -/
def stepMove (up fwd down : TraceResult) (remainingTime : ℚ) :
    Option (Vec3 × ℚ) :=
  if up.fraction < floatEps then none
  else if fwd.fraction < floatEps then none
  else if down.fraction < 1 ∧ slopeLeMaxSlope down.planeNormal then
    if down.hitFilterGroup = CollisionType.actor then none
    else some (down.endPos, remainingTime * (1 - fwd.fraction))
  else none

/-- Down vector used by the swim-ceiling clamp (line 305). -/
def down : Vec3 := ⟨0, 0, -1⟩

/-- New velocity computed by the swim-ceiling clamp (lines 306-309).  The
source first normalizes velocity (keeping movelen = |velocity|), reflects
the normalized vector about down, normalizes the reflection (a no-op in
exact arithmetic: reflection about the unit vector down preserves length),
slides along down and rescales by movelen.  Because slide and reflect are
linear, the two normalizations and the final rescale cancel exactly, so
the computed value is slide(reflect(velocity, down), down), which this
definition uses; it also returns the zero vector for zero velocity, as the
source does (osg normalize leaves a zero vector unchanged). -/
def swimClampVelocity (velocity : Vec3) : Vec3 :=
  slide (reflect velocity down) down

/-- Swim-ceiling clamp head of one solver loop iteration (lines 297-312).
Given the current internal position, velocity, remaining time, swim level
and flying flag, computes nextpos = newPosition + velocity * remainingTime
and, when the clamp condition newPosition.z < swimlevel and not flying and
nextpos.z > swimlevel and newPosition.z <= swimlevel holds, returns the
updated velocity together with the unchanged remaining time (the source
issues continue without consuming time).  Returns none when the branch is
not taken. -/
def swimClampStep (newPosition velocity : Vec3) (remainingTime swimlevel : ℚ)
    (isFlying : Bool) : Option (Vec3 × ℚ) :=
  let nextpos := newPosition + velocity.smul remainingTime
  if newPosition.z < swimlevel ∧ ¬ isFlying ∧ swimlevel < nextpos.z ∧
      newPosition.z ≤ swimlevel then
    some (swimClampVelocity velocity, remainingTime)
  else none

/-- Slide branch of one solver loop iteration after a failed step-up
(lines 366-386).  The source computes
newVelocity = slide(normalize(reflect(velocity, planeNormal)), planeNormal)
* movelen with movelen = |velocity|; for a unit planeNormal the
normalization divides by |reflect(velocity, planeNormal)| = |velocity|, so
the rescale cancels it exactly and newVelocity =
slide(reflect(velocity, planeNormal), planeNormal), which this definition
uses.  Returns none when the loop breaks, otherwise the velocity for the
next iteration: newVelocity, with its z component clamped to at most 0
unless belowSwimOrFlying (newPosition.z < swimlevel or isFlying in the
source) holds. -/
def slideStep (velocity origVelocity planeNormal : Vec3)
    (belowSwimOrFlying : Bool) : Option Vec3 :=
  let newVelocity := slide (reflect velocity planeNormal) planeNormal
  if (newVelocity - velocity).length2 < 1 / 100 then none
  else if velocity.dot origVelocity ≤ 0 then none
  else if belowSwimOrFlying then some newVelocity
  else some ⟨newVelocity.x, newVelocity.y, min newVelocity.z 0⟩

/-- Gravity integration at the end of MovementSolver::move (lines 436-444):
the value stored by setInertialForce.  When
isOnGround or newPosition.z < swimlevel or isFlying, the zero vector is
stored; otherwise inertia.z is decreased by time * 627.2 and, when the
result is negative, multiplied by the slow fall factor. -/
def gravityInertia (isOnGround : Bool) (newPositionZ swimlevel : ℚ)
    (isFlying : Bool) (inertia : Vec3) (time slowFall : ℚ) : Vec3 :=
  if isOnGround ∨ newPositionZ < swimlevel ∨ isFlying then Vec3.zero
  else
    let z := inertia.z + time * (-(3136 / 5))
    let z := if z < 0 then z * slowFall else z
    ⟨inertia.x, inertia.y, z⟩

/-- MovementSolver::traceDown (lines 185-221), with the capsule sweep
(findGround) and the thin downward ray test supplied as oracles.  Returns
the new position together with the on-ground flag written through
setOnGround.  The source compares the distance between the ray hit point
and the sweep end position against 30 via length(); in exact arithmetic
this is equivalent to comparing the squared length against 900. -/
def traceDown (position : Vec3) (sweep : TraceResult) (ray : RayResult) :
    Vec3 × Bool :=
  if 1 ≤ sweep.fraction then (position, false)
  else if ray.hasHit ∧
      (900 < (ray.hitPointWorld - sweep.endPos).length2 ∨
        ¬ slopeLeMaxSlope sweep.planeNormal) then
    (ray.hitPointWorld + ⟨0, 0, 1⟩, slopeLeMaxSlope ray.hitNormalWorld)
  else (sweep.endPos, slopeLeMaxSlope sweep.planeNormal)

/-- Minimum and maximum scan of the HeightField constructor (lines 460-468):
minh and maxh start at heights[0] and the loop folds min and max over the
remaining entries. -/
def minMaxHeights (h0 : ℚ) (rest : List ℚ) : ℚ × ℚ :=
  rest.foldl (fun p h => (min p.1 h, max p.2 h)) (h0, h0)

/-- World transform built by the HeightField constructor (lines 478-481):
identity rotation and origin
((x+0.5) * triSize * (sqrtVerts-1), (y+0.5) * triSize * (sqrtVerts-1),
(maxh+minh) * 0.5).  The height array of length sqrtVerts * sqrtVerts is
passed as a list; heights[0] seeds the min and max scan and the loop
covers the tail. -/
def heightFieldTransform (heights : List ℚ) (x y : ℤ) (triSize : ℚ)
    (sqrtVerts : ℕ) : Transform :=
  let h0 := heights.headD 0
  let mm := minMaxHeights h0 heights.tail
  { rotation := Quat.identity
    origin := ⟨((x : ℚ) + 1 / 2) * triSize * ((sqrtVerts : ℚ) - 1),
               ((y : ℚ) + 1 / 2) * triSize * ((sqrtVerts : ℚ) - 1),
               (mm.2 + mm.1) / 2⟩ }

/-- Entity handle (MWWorld::Ptr), modelled as an opaque natural number. -/
abbrev Ptr := ℕ

/-- Per-actor physics state as far as the facade claims read it (class Actor):
the collision mode flag toggled by enableCollisionMode and the
can-water-walk flag. -/
structure ActorState where
  collisionMode : Bool
  canWaterWalk : Bool
deriving DecidableEq, Repr

/-- Static object record (class Object): the shape instance handle wrapped
into a btCollisionObject. -/
structure ObjectRecord where
  shape : ℕ
deriving DecidableEq, Repr

/-- One collision object registered in the dynamics world
(btDiscreteDynamicsWorld::addCollisionObject): owner entity, filter group
and filter mask. -/
structure WorldEntry where
  owner : Ptr
  group : CollisionType
  mask : List CollisionType
deriving DecidableEq, Repr

/-- Result of BulletShapeManager::createInstance
(components/resource/bulletshapemanager.hpp): a shape instance whose
getCollisionShape() may be null, modelled as an optional shape handle. -/
structure BulletShapeInstance where
  collisionShape : Option ℕ
deriving DecidableEq, Repr

/-- State of the PhysicsSystem facade that the facade claims read: the time
accumulator mTimeAccum, the movement queue mMovementQueue, the result list
mMovementResults, the actor map mActors, the object map mObjects, and the
collision objects registered in the dynamics world. -/
structure PhysicsState where
  timeAccum : ℚ
  movementQueue : List (Ptr × Vec3)
  movementResults : List (Ptr × Vec3)
  actors : List (Ptr × ActorState)
  objects : List (Ptr × ObjectRecord)
  worldObjects : List WorldEntry
deriving DecidableEq, Repr

/-- PhysicsSystem::queueObjectMovement (lines 891-904): scan the queue for
an entry with the same entity; on a match overwrite its stored vector in
place and stop, otherwise append a new entry at the end. -/
def queueObjectMovement (queue : List (Ptr × Vec3)) (ptr : Ptr)
    (movement : Vec3) : List (Ptr × Vec3) :=
  match queue with
  | [] => [(ptr, movement)]
  | (p, v) :: rest =>
      if p = ptr then (p, movement) :: rest
      else (p, v) :: queueObjectMovement rest ptr movement

/-- PhysicsSystem::applyQueuedMovement (lines 913-970).  mMovementResults is
cleared on entry; dt is added to mTimeAccum; when the accumulator reaches
1/60 the queue is drained (entries whose entity is no longer in the actor
map are skipped; for the rest, MovementSolver::move is invoked with the
full accumulated time — abstracted here by the solve oracle, which stands
for the world queries together with the move call) and the accumulator is
zeroed.  The movement queue is cleared unconditionally before returning
mMovementResults. -/
def applyQueuedMovement (st : PhysicsState) (dt : ℚ)
    (solve : Ptr → Vec3 → ℚ → Vec3) : PhysicsState × List (Ptr × Vec3) :=
  let accum := st.timeAccum + dt
  if 1 / 60 ≤ accum then
    let results := st.movementQueue.filterMap (fun pv =>
      if (st.actors.find? (fun e => e.1 == pv.1)).isSome then
        some (pv.1, solve pv.1 pv.2 accum)
      else none)
    ({ st with timeAccum := 0, movementQueue := [],
               movementResults := results }, results)
  else
    ({ st with timeAccum := accum, movementQueue := [],
               movementResults := [] }, [])

/-- PhysicsSystem::addObject (lines 754-765): ask the shape manager for an
instance (supplied as an oracle argument); when the instance has no
collision shape, return immediately, otherwise create the Object record,
insert it into mObjects and register its collision object in the world
with group World and mask Actor or HeightMap or Projectile. -/
def addObject (st : PhysicsState) (ptr : Ptr) (inst : BulletShapeInstance) :
    PhysicsState :=
  match inst.collisionShape with
  | none => st
  | some s =>
      { st with
        objects := st.objects ++ [(ptr, ⟨s⟩)]
        worldObjects := st.worldObjects ++
          [⟨ptr, CollisionType.world,
            [CollisionType.actor, CollisionType.heightMap,
             CollisionType.projectile]⟩] }

/-- PhysicsSystem::toggleCollisionMode (lines 877-889): look up the player
entity (supplied as an argument, standing for getPlayerPtr) in the actor
map; when found, negate the collision mode flag of that actor in place and
return the new flag; when absent, return false without touching anything. -/
def toggleCollisionMode (st : PhysicsState) (player : Ptr) :
    Bool × PhysicsState :=
  match st.actors.find? (fun e => e.1 == player) with
  | none => (false, st)
  | some e =>
      let cmode := ! e.2.collisionMode
      (cmode,
        { st with actors := st.actors.map (fun f =>
            if f.1 = player then (f.1, { f.2 with collisionMode := cmode })
            else f) })

/-! ## Helper lemmas -/

@[simp] theorem Vec3.mk_x (a b c : ℚ) : (Vec3.mk a b c).x = a := rfl

@[simp] theorem Vec3.mk_y (a b c : ℚ) : (Vec3.mk a b c).y = b := rfl

@[simp] theorem Vec3.mk_z (a b c : ℚ) : (Vec3.mk a b c).z = c := rfl

@[simp] theorem Vec3.add_x (a b : Vec3) : (a + b).x = a.x + b.x := rfl

@[simp] theorem Vec3.add_y (a b : Vec3) : (a + b).y = a.y + b.y := rfl

@[simp] theorem Vec3.add_z (a b : Vec3) : (a + b).z = a.z + b.z := rfl

@[simp] theorem Vec3.sub_x (a b : Vec3) : (a - b).x = a.x - b.x := rfl

@[simp] theorem Vec3.sub_y (a b : Vec3) : (a - b).y = a.y - b.y := rfl

@[simp] theorem Vec3.sub_z (a b : Vec3) : (a - b).z = a.z - b.z := rfl

@[simp] theorem Vec3.smul_x (a : Vec3) (c : ℚ) : (a.smul c).x = a.x * c := rfl

@[simp] theorem Vec3.smul_y (a : Vec3) (c : ℚ) : (a.smul c).y = a.y * c := rfl

@[simp] theorem Vec3.smul_z (a : Vec3) (c : ℚ) : (a.smul c).z = a.z * c := rfl

@[simp] theorem Vec3.dot_def (a b : Vec3) :
    a.dot b = a.x * b.x + a.y * b.y + a.z * b.z := rfl

@[simp] theorem Vec3.length2_def (a : Vec3) :
    a.length2 = a.x * a.x + a.y * a.y + a.z * a.z := rfl

theorem Vec3.ext_iff {a b : Vec3} :
    a = b ↔ a.x = b.x ∧ a.y = b.y ∧ a.z = b.z := by
  cases a; cases b; simp [Vec3.mk.injEq]

/-- The swim-ceiling clamp velocity equals the horizontal projection of the
incoming velocity: reflecting about the down vector negates the z component
and sliding along the down vector removes it again. -/
theorem swimClampVelocity_eq (v : Vec3) :
    swimClampVelocity v = ⟨v.x, v.y, 0⟩ := by
  simp [swimClampVelocity, slide, reflect, project, down, Vec3.ext_iff]

/-! ## Claim C4: swim-ceiling clamp -/

/-- C4 counterexample.  The claim asserts the clamp fires whenever
p.z ≤ swimLevel (and next.z > swimLevel, not flying) and that the new
velocity has the same magnitude as the old one.  Both parts fail on the
code: at p.z = swimLevel exactly (first conjucts: the claim condition
holds) the branch is skipped because the source requires the strict
inequality newPosition.z < swimlevel; and for velocity (3,0,4) the branch
produces (3,0,0), whose squared length 9 differs from 25. -/
theorem swimClampStep_cex :
    (Vec3.mk 0 0 0).z ≤ (0 : ℚ) ∧
    (0 : ℚ) < (Vec3.mk 0 0 0 + (Vec3.mk 0 0 5).smul 1).z ∧
    swimClampStep ⟨0, 0, 0⟩ ⟨0, 0, 5⟩ 1 0 false = none ∧
    swimClampStep ⟨0, 0, -10⟩ ⟨3, 0, 4⟩ 5 0 false = some (⟨3, 0, 0⟩, 5) ∧
    (Vec3.mk 3 0 0).length2 ≠ (Vec3.mk 3 0 4).length2 := by
  norm_num [swimClampStep, swimClampVelocity, slide, reflect, project, down,
    Vec3.ext_iff, Prod.ext_iff]

/-- C4 (amended): in every solver iteration where the actor is not flying,
the internal position satisfies p.z < swimLevel strictly, and the proposed
next position satisfies next.z > swimLevel, the velocity is replaced by
its horizontal projection (v.x, v.y, 0) — preserving the horizontal
components, with magnitude equal to the horizontal part of v — and the
iteration continues without consuming any remaining time. -/
theorem swimClampStep_spec (p v : Vec3) (rt swim : ℚ) (fly : Bool)
    (hz : p.z < swim) (hfly : fly = false)
    (hnext : swim < (p + v.smul rt).z) :
    swimClampStep p v rt swim fly = some (⟨v.x, v.y, 0⟩, rt) := by
  have hcond : p.z < swim ∧ ¬ (fly = true) ∧ swim < (p + v.smul rt).z ∧
      p.z ≤ swim := ⟨hz, by simp [hfly], hnext, le_of_lt hz⟩
  simp only [swimClampStep]
  rw [if_pos hcond, swimClampVelocity_eq]

/-- C4 witness: a swimming actor at internal height -50 under water level 0
moving with velocity (0, 100, 50) is redirected to (0, 100, 0) with the
remaining time untouched. -/
theorem swimClampStep_spec_witness :
    ((-50 : ℚ) < 0 ∧ (false : Bool) = false ∧
      (0 : ℚ) < (Vec3.mk 0 0 (-50) + (Vec3.mk 0 100 50).smul 2).z) ∧
    swimClampStep ⟨0, 0, -50⟩ ⟨0, 100, 50⟩ 2 0 false =
      some (⟨0, 100, 0⟩, 2) :=
  ⟨⟨by norm_num, rfl, by norm_num⟩,
    swimClampStep_spec _ _ _ _ _ (by norm_num) rfl (by norm_num)⟩

/-! ## Claim C2: slide velocity and loop break conditions -/

/-- C2 counterexample.  The claim asserts the loop breaks when the dot
product of the NEW velocity with the initial velocity is ≤ 0.  With
velocity = origVelocity = (0,5,0) heading straight into a wall with unit
normal (0,-1,0), the new velocity is (0,0,0), so the claimed condition
(new velocity) . (initial velocity) = 0 ≤ 0 holds and the first break
condition does not; yet the code continues the iteration with the new
velocity (it tests the dot product of the CURRENT velocity with the
initial velocity, 25 > 0). -/
theorem slideStep_cex :
    (slide (reflect ⟨0, 5, 0⟩ ⟨0, -1, 0⟩) ⟨0, -1, 0⟩).dot ⟨0, 5, 0⟩ ≤ 0 ∧
    1 / 100 ≤
      (slide (reflect ⟨0, 5, 0⟩ ⟨0, -1, 0⟩) ⟨0, -1, 0⟩ -
        (⟨0, 5, 0⟩ : Vec3)).length2 ∧
    (Vec3.mk 0 (-1) 0).length2 = 1 ∧
    slideStep ⟨0, 5, 0⟩ ⟨0, 5, 0⟩ ⟨0, -1, 0⟩ false = some ⟨0, 0, 0⟩ := by
  norm_num [slideStep, slide, reflect, project, Vec3.ext_iff]

/-- C2 (amended): in every iteration where the sweep hits and step-up
fails, the slide velocity vNew = slide(reflect(v, n), n) (equal to the
source value slide(normalize(reflect(v, n)), n) * |v| for a unit normal)
is computed, and the loop breaks when |vNew − v|² < 0.01 or when the dot
product of the CURRENT velocity v with the initial velocity v0 is ≤ 0;
otherwise it continues with v ← vNew, with vNew.z clamped to ≤ 0 when not
below swim level and not flying. -/
theorem slideStep_spec (v v0 n : Vec3) (below : Bool) :
    ((slide (reflect v n) n - v).length2 < 1 / 100 ∨ v.dot v0 ≤ 0 →
      slideStep v v0 n below = none) ∧
    (1 / 100 ≤ (slide (reflect v n) n - v).length2 → 0 < v.dot v0 →
      slideStep v v0 n below =
        some (if below then slide (reflect v n) n
          else ⟨(slide (reflect v n) n).x, (slide (reflect v n) n).y,
                min (slide (reflect v n) n).z 0⟩)) := by
  constructor
  · rintro (h | h)
    · simp only [slideStep]
      rw [if_pos h]
    · simp only [slideStep]
      by_cases h1 : (slide (reflect v n) n - v).length2 < 1 / 100
      · rw [if_pos h1]
      · rw [if_neg h1, if_pos h]
  · intro h1 h2
    simp only [slideStep]
    rw [if_neg (not_lt.mpr h1), if_neg (not_le.mpr h2)]
    split <;> rfl

/-- C2 witness: sliding along a wall with unit normal (-1,0,0) at velocity
(4,3,0): the slide velocity is (0,3,0), neither break condition fires, and
the iteration continues with the clamped slide velocity. -/
theorem slideStep_spec_witness :
    (1 / 100 ≤
        (slide (reflect ⟨4, 3, 0⟩ ⟨-1, 0, 0⟩) ⟨-1, 0, 0⟩ -
          (⟨4, 3, 0⟩ : Vec3)).length2 ∧
      (0 : ℚ) < (Vec3.mk 4 3 0).dot ⟨4, 3, 0⟩) ∧
    slideStep ⟨4, 3, 0⟩ ⟨4, 3, 0⟩ ⟨-1, 0, 0⟩ false =
      some (if (false : Bool) then slide (reflect ⟨4, 3, 0⟩ ⟨-1, 0, 0⟩) ⟨-1, 0, 0⟩
        else ⟨(slide (reflect ⟨4, 3, 0⟩ ⟨-1, 0, 0⟩) ⟨-1, 0, 0⟩).x,
              (slide (reflect ⟨4, 3, 0⟩ ⟨-1, 0, 0⟩) ⟨-1, 0, 0⟩).y,
              min (slide (reflect ⟨4, 3, 0⟩ ⟨-1, 0, 0⟩) ⟨-1, 0, 0⟩).z 0⟩) :=
  ⟨⟨by norm_num [slide, reflect, project], by norm_num⟩,
    (slideStep_spec ⟨4, 3, 0⟩ ⟨4, 3, 0⟩ ⟨-1, 0, 0⟩ false).2
      (by norm_num [slide, reflect, project]) (by norm_num)⟩

/-! ## Claim C3: gravity integration of the inertial force -/

/-- C3 counterexample.  The claim asserts the stored inertial force is the
zero vector ONLY IF isOnGround or submerged or flying.  With none of these
holding, incoming inertia (0, 0, 3136/300) and tick 1/60, the gravity
update 3136/300 − (1/60)·627.2 lands exactly on 0, so the stored force is
the zero vector while the claimed condition is false. -/
theorem gravityInertia_cex :
    ¬ ((false : Bool) = true ∨ (0 : ℚ) < -1 ∨ (false : Bool) = true) ∧
    gravityInertia false 0 (-1) false ⟨0, 0, 3136 / 300⟩ (1 / 60) (1 / 2) =
      Vec3.zero := by
  constructor
  · norm_num
  · norm_num [gravityInertia, Vec3.zero, Vec3.ext_iff]

/-- C3 (amended): after move() with collision mode on, the stored inertial
force is the zero vector IF isOnGround or (internal z < swimLevel) or
flying at the end of the call; otherwise it equals the working inertia
with its z component decreased by 627.2 · Δt and, whenever the resulting z
component is negative, that z component additionally multiplied by the
slow-fall factor (a value that can itself happen to be the zero vector). -/
theorem gravityInertia_spec (og : Bool) (z swim : ℚ) (fly : Bool)
    (inertia : Vec3) (t s : ℚ) :
    ((og ∨ z < swim ∨ fly) → gravityInertia og z swim fly inertia t s = Vec3.zero) ∧
    (¬ (og ∨ z < swim ∨ fly) →
      gravityInertia og z swim fly inertia t s =
        ⟨inertia.x, inertia.y,
          if inertia.z + t * (-(3136 / 5)) < 0
          then (inertia.z + t * (-(3136 / 5))) * s
          else inertia.z + t * (-(3136 / 5))⟩) := by
  constructor
  · intro h
    simp only [gravityInertia]
    rw [if_pos h]
  · intro h
    simp only [gravityInertia]
    rw [if_neg h]

/-- C3 witness: free fall from rest with slow fall 1 stores exactly the
gravity increment −627.2/60 on the z axis after one tick. -/
theorem gravityInertia_spec_witness :
    ¬ ((false : Bool) = true ∨ (100 : ℚ) < 0 ∨ (false : Bool) = true) ∧
    gravityInertia false 100 0 false ⟨0, 0, 0⟩ (1 / 60) 1 =
      ⟨0, 0,
        if (0 : ℚ) + 1 / 60 * (-(3136 / 5)) < 0
        then ((0 : ℚ) + 1 / 60 * (-(3136 / 5))) * 1
        else (0 : ℚ) + 1 / 60 * (-(3136 / 5))⟩ :=
  ⟨by norm_num,
    (gravityInertia_spec false 100 0 false ⟨0, 0, 0⟩ (1 / 60) 1).2 (by norm_num)⟩

/-! ## Claim C6: stepMove success conditions -/

/-- C6: stepMove succeeds only when the final downward sweep hits
(fraction < 1) a surface of slope at most sMaxSlope belonging to a
collider outside the Actor filter group; on success the new position is
the down sweep end position and the remaining time is rescaled by one
minus the forward fraction.  In particular an Actor hit of the downward
sweep forces failure, leaving the caller position and remaining time
untouched (the none result). -/
theorem stepMove_spec (up fwd dn : TraceResult) (rt : ℚ) :
    (∀ p r, stepMove up fwd dn rt = some (p, r) →
      dn.fraction < 1 ∧ slopeLeMaxSlope dn.planeNormal = true ∧
      dn.hitFilterGroup ≠ CollisionType.actor ∧
      p = dn.endPos ∧ r = rt * (1 - fwd.fraction)) ∧
    (dn.hitFilterGroup = CollisionType.actor → stepMove up fwd dn rt = none) := by
  constructor
  · intro p r h
    simp only [stepMove] at h
    split_ifs at h with h1 h2 h3 h4
    injection h with hpr
    rw [Prod.ext_iff] at hpr
    exact ⟨h3.1, h3.2, h4, hpr.1.symm, hpr.2.symm⟩
  · intro h
    simp [stepMove, h]

/-- C6 witness: a downward sweep that lands on a flat surface
(fraction 1/2, normal (0,0,1)) owned by an Actor collider makes stepMove
fail. -/
theorem stepMove_spec_witness :
    (TraceResult.mk (1 / 2) ⟨0, 0, 10⟩ ⟨0, 0, 1⟩ CollisionType.actor).hitFilterGroup
        = CollisionType.actor ∧
    stepMove ⟨1, ⟨0, 0, 34⟩, ⟨0, 0, 1⟩, CollisionType.world⟩
        ⟨1, ⟨5, 0, 34⟩, ⟨0, 0, 1⟩, CollisionType.world⟩
        ⟨1 / 2, ⟨0, 0, 10⟩, ⟨0, 0, 1⟩, CollisionType.actor⟩ 1 = none :=
  ⟨rfl,
    (stepMove_spec ⟨1, ⟨0, 0, 34⟩, ⟨0, 0, 1⟩, CollisionType.world⟩
      ⟨1, ⟨5, 0, 34⟩, ⟨0, 0, 1⟩, CollisionType.world⟩
      ⟨1 / 2, ⟨0, 0, 10⟩, ⟨0, 0, 1⟩, CollisionType.actor⟩ 1).2 rfl⟩

/-! ## Claim C7: traceDown case analysis -/

/-- C7: traceDown returns the input position with on-ground false when the
capsule sweep finds no hit (fraction ≥ 1); when it hits and the thin ray
also hit at a point more than 30 units from the sweep end (squared
distance over 900) or the sweep plane slope exceeds sMaxSlope, it returns
the ray hit point raised by (0,0,1) with on-ground derived from the ray
normal slope; otherwise it returns the sweep end position with on-ground
derived from the sweep normal slope. -/
theorem traceDown_spec (pos : Vec3) (sweep : TraceResult) (ray : RayResult) :
    (1 ≤ sweep.fraction → traceDown pos sweep ray = (pos, false)) ∧
    (sweep.fraction < 1 →
      (ray.hasHit ∧ (900 < (ray.hitPointWorld - sweep.endPos).length2 ∨
        ¬ slopeLeMaxSlope sweep.planeNormal)) →
      traceDown pos sweep ray =
        (ray.hitPointWorld + ⟨0, 0, 1⟩, slopeLeMaxSlope ray.hitNormalWorld)) ∧
    (sweep.fraction < 1 →
      ¬ (ray.hasHit ∧ (900 < (ray.hitPointWorld - sweep.endPos).length2 ∨
        ¬ slopeLeMaxSlope sweep.planeNormal)) →
      traceDown pos sweep ray =
        (sweep.endPos, slopeLeMaxSlope sweep.planeNormal)) := by
  refine ⟨fun h => ?_, fun h1 h2 => ?_, fun h1 h2 => ?_⟩
  · simp only [traceDown]
    rw [if_pos h]
  · simp only [traceDown]
    rw [if_neg (not_le.mpr h1), if_pos h2]
  · simp only [traceDown]
    rw [if_neg (not_le.mpr h1), if_neg h2]

/-- C7 witness: a sweep with fraction 1 reports no hit, so traceDown
returns the input position and clears the on-ground flag. -/
theorem traceDown_spec_witness :
    (1 : ℚ) ≤ (TraceResult.mk 1 ⟨0, 0, -62⟩ ⟨0, 0, 1⟩ CollisionType.world).fraction ∧
    traceDown ⟨7, 8, 9⟩ ⟨1, ⟨0, 0, -62⟩, ⟨0, 0, 1⟩, CollisionType.world⟩
        ⟨false, ⟨0, 0, 0⟩, ⟨0, 0, 1⟩⟩ = (⟨7, 8, 9⟩, false) :=
  ⟨le_refl 1,
    (traceDown_spec ⟨7, 8, 9⟩ ⟨1, ⟨0, 0, -62⟩, ⟨0, 0, 1⟩, CollisionType.world⟩
      ⟨false, ⟨0, 0, 0⟩, ⟨0, 0, 1⟩⟩).1 (le_refl 1)⟩

/-! ## Claim C5: movement queue deduplication -/

/-- Keys of the queue after queueObjectMovement: unchanged when the entity
was already queued, extended by the entity otherwise. -/
theorem queueObjectMovement_keys (q : List (Ptr × Vec3)) (ptr : Ptr) (v : Vec3) :
    (queueObjectMovement q ptr v).map Prod.fst =
      if ptr ∈ q.map Prod.fst then q.map Prod.fst
      else q.map Prod.fst ++ [ptr] := by
  induction q with
  | nil => simp [queueObjectMovement]
  | cons e rest ih =>
      obtain ⟨p, w⟩ := e
      by_cases hp : p = ptr
      · subst hp
        simp [queueObjectMovement]
      · have hp' : ptr ≠ p := fun hc => hp hc.symm
        by_cases hin : ptr ∈ rest.map Prod.fst <;>
          simp [queueObjectMovement, if_neg hp, ih, hp', hin]

/-- With no duplicate keys, queueObjectMovement is replace-in-place when
the entity is present (all other entries untouched, position preserved)
and append-at-end otherwise. -/
theorem queueObjectMovement_eq (q : List (Ptr × Vec3)) (ptr : Ptr) (v : Vec3)
    (hnd : (q.map Prod.fst).Nodup) :
    queueObjectMovement q ptr v =
      if ptr ∈ q.map Prod.fst
      then q.map (fun e => if e.1 = ptr then (ptr, v) else e)
      else q ++ [(ptr, v)] := by
  induction q with
  | nil => simp [queueObjectMovement]
  | cons e rest ih =>
      obtain ⟨p, w⟩ := e
      simp only [List.map_cons, List.nodup_cons] at hnd
      obtain ⟨hnotin, hnd1⟩ := hnd
      by_cases hp : p = ptr
      · subst hp
        have hrest : rest.map (fun e => if e.1 = p then (p, v) else e) = rest := by
          conv_rhs => rw [← List.map_id rest]
          apply List.map_congr_left
          intro a ha
          have hne : a.1 ≠ p := fun hc =>
            hnotin (hc ▸ List.mem_map_of_mem Prod.fst ha)
          simp [hne]
        simp [queueObjectMovement, hrest]
      · have hp' : ptr ≠ p := fun hc => hp hc.symm
        by_cases hin : ptr ∈ rest.map Prod.fst <;>
          simp [queueObjectMovement, if_neg hp, ih hnd1, hp', hin]

/-- C5: with at most one entry per actor in the queue, queueObjectMovement
with the actor already present replaces the stored vector in place,
preserving the position in the queue and every other entry; with the actor
absent it appends at the end; and it preserves the at-most-one-entry-per-
actor invariant. -/
theorem queueObjectMovement_spec (q : List (Ptr × Vec3)) (ptr : Ptr) (v : Vec3)
    (hnd : (q.map Prod.fst).Nodup) :
    ((queueObjectMovement q ptr v).map Prod.fst).Nodup ∧
    queueObjectMovement q ptr v =
      (if ptr ∈ q.map Prod.fst
       then q.map (fun e => if e.1 = ptr then (ptr, v) else e)
       else q ++ [(ptr, v)]) := by
  refine ⟨?_, queueObjectMovement_eq q ptr v hnd⟩
  rw [queueObjectMovement_keys]
  by_cases hin : ptr ∈ q.map Prod.fst
  · rwa [if_pos hin]
  · rw [if_neg hin]
    simp [List.nodup_append, hnd, hin]

/-- C5 witness: re-queueing actor 1 replaces its vector in place ahead of
actor 2, keeping one entry per actor. -/
theorem queueObjectMovement_spec_witness :
    (([((1 : Ptr), (⟨1, 2, 3⟩ : Vec3)), (2, ⟨4, 5, 6⟩)].map Prod.fst).Nodup) ∧
    (((queueObjectMovement [((1 : Ptr), (⟨1, 2, 3⟩ : Vec3)), (2, ⟨4, 5, 6⟩)]
        1 ⟨9, 9, 9⟩).map Prod.fst).Nodup ∧
      queueObjectMovement [((1 : Ptr), (⟨1, 2, 3⟩ : Vec3)), (2, ⟨4, 5, 6⟩)]
          1 ⟨9, 9, 9⟩ =
        (if 1 ∈ [((1 : Ptr), (⟨1, 2, 3⟩ : Vec3)), (2, ⟨4, 5, 6⟩)].map Prod.fst
         then [((1 : Ptr), (⟨1, 2, 3⟩ : Vec3)), (2, ⟨4, 5, 6⟩)].map
            (fun e => if e.1 = 1 then (1, ⟨9, 9, 9⟩) else e)
         else [((1 : Ptr), (⟨1, 2, 3⟩ : Vec3)), (2, ⟨4, 5, 6⟩)] ++
            [(1, ⟨9, 9, 9⟩)])) :=
  ⟨by decide, queueObjectMovement_spec _ 1 _ (by decide)⟩

/-! ## Claim C8: addObject with a missing collision shape -/

/-- C8: when the shape factory returns an instance without a collision
shape, addObject is a no-op: the whole physics state (object map, world
registrations) is unchanged and the entity stays untracked. -/
theorem addObject_no_shape_noop (st : PhysicsState) (ptr : Ptr)
    (inst : BulletShapeInstance) (h : inst.collisionShape = none) :
    addObject st ptr inst = st ∧
    (ptr ∉ st.objects.map Prod.fst →
      ptr ∉ (addObject st ptr inst).objects.map Prod.fst) := by
  have heq : addObject st ptr inst = st := by
    unfold addObject
    rw [h]
  exact ⟨heq, fun hn => by rw [heq]; exact hn⟩

/-- C8 witness: adding entity 5 with a shape-less instance to an empty
state changes nothing and leaves 5 untracked. -/
theorem addObject_no_shape_noop_witness :
    (BulletShapeInstance.mk none).collisionShape = none ∧
    (addObject ⟨0, [], [], [], [], []⟩ 5 ⟨none⟩ = ⟨0, [], [], [], [], []⟩ ∧
      (5 ∉ ((⟨0, [], [], [], [], []⟩ : PhysicsState)).objects.map Prod.fst →
        5 ∉ (addObject ⟨0, [], [], [], [], []⟩ 5 ⟨none⟩).objects.map Prod.fst)) :=
  ⟨rfl, addObject_no_shape_noop ⟨0, [], [], [], [], []⟩ 5 ⟨none⟩ rfl⟩

/-! ## Claim C10: toggleCollisionMode without a player actor -/

/-- C10: when no actor is registered for the player entity,
toggleCollisionMode returns false and leaves the whole physics state
unchanged. -/
theorem toggleCollisionMode_no_player_actor (st : PhysicsState) (player : Ptr)
    (h : ∀ e ∈ st.actors, e.1 ≠ player) :
    toggleCollisionMode st player = (false, st) := by
  have hfind : st.actors.find? (fun e => e.1 == player) = none := by
    rw [List.find?_eq_none]
    intro e he
    simpa using h e he
  unfold toggleCollisionMode
  rw [hfind]

/-- C10 witness: with only actor 2 registered and player entity 1, the
toggle returns false and the state, actor flags included, is untouched. -/
theorem toggleCollisionMode_no_player_actor_witness :
    (∀ e ∈ [((2 : Ptr), ActorState.mk true false)], e.1 ≠ 1) ∧
    toggleCollisionMode ⟨0, [], [], [(2, ⟨true, false⟩)], [], []⟩ 1 =
      (false, ⟨0, [], [], [(2, ⟨true, false⟩)], [], []⟩) :=
  ⟨by decide,
    toggleCollisionMode_no_player_actor ⟨0, [], [], [(2, ⟨true, false⟩)], [], []⟩
      1 (by decide)⟩

/-! ## Claim C1: applyQueuedMovement below the fixed-tick threshold -/

/-- C1 counterexample.  The claim asserts a below-threshold call leaves the
pending movement queue unchanged so that the next above-threshold call
still drains it.  With accumulator 0 and dt = 1/100 (below 1/60), the
queue holding one pending movement for actor 1 comes back empty: the
source clears mMovementQueue unconditionally on every call. -/
theorem applyQueuedMovement_cex :
    ((0 : ℚ) + 1 / 100 < 1 / 60) ∧
    (applyQueuedMovement
        ⟨0, [(1, ⟨1, 0, 0⟩)], [], [(1, ⟨true, false⟩)], [], []⟩ (1 / 100)
        (fun _ v _ => v)).1.movementQueue = [] ∧
    ((⟨0, [(1, ⟨1, 0, 0⟩)], [], [(1, ⟨true, false⟩)], [], []⟩ :
        PhysicsState)).movementQueue ≠ [] := by
  refine ⟨by norm_num, ?_, by simp⟩
  norm_num [applyQueuedMovement]

/-- C1 (amended): a call to applyQueuedMovement whose accumulated time
(including this dt) is below the 1/60 threshold returns an empty result
list and only advances the accumulator — but it still clears the pending
movement queue, so movements queued before such a call are discarded
rather than drained by the next above-threshold call. -/
theorem applyQueuedMovement_below_threshold (st : PhysicsState) (dt : ℚ)
    (solve : Ptr → Vec3 → ℚ → Vec3) (h : st.timeAccum + dt < 1 / 60) :
    applyQueuedMovement st dt solve =
      ({ st with timeAccum := st.timeAccum + dt, movementQueue := [],
                 movementResults := [] }, []) := by
  simp only [applyQueuedMovement]
  rw [if_neg (not_le.mpr h)]

/-- C1 witness: a below-threshold call on a state with one queued movement
yields the empty result list, the advanced accumulator, and an empty
queue. -/
theorem applyQueuedMovement_below_threshold_witness :
    ((0 : ℚ) + 1 / 100 < 1 / 60) ∧
    applyQueuedMovement ⟨0, [(1, ⟨1, 0, 0⟩)], [], [], [], []⟩ (1 / 100)
        (fun _ v _ => v) =
      ({ (⟨0, [(1, ⟨1, 0, 0⟩)], [], [], [], []⟩ : PhysicsState) with
          timeAccum :=
            ((⟨0, [(1, ⟨1, 0, 0⟩)], [], [], [], []⟩ : PhysicsState)).timeAccum
              + 1 / 100,
          movementQueue := [], movementResults := [] }, []) :=
  ⟨by norm_num,
    applyQueuedMovement_below_threshold ⟨0, [(1, ⟨1, 0, 0⟩)], [], [], [], []⟩
      (1 / 100) (fun _ v _ => v) (by norm_num)⟩

/-! ## Claim C9: HeightField world transform -/

/-- First component of the min-max fold stays at the seed or lands on a
list element; likewise for the second component. -/
theorem minMaxFold_mem (l : List ℚ) : ∀ mn mx : ℚ,
    ((l.foldl (fun p h => (min p.1 h, max p.2 h)) (mn, mx)).1 = mn ∨
      (l.foldl (fun p h => (min p.1 h, max p.2 h)) (mn, mx)).1 ∈ l) ∧
    ((l.foldl (fun p h => (min p.1 h, max p.2 h)) (mn, mx)).2 = mx ∨
      (l.foldl (fun p h => (min p.1 h, max p.2 h)) (mn, mx)).2 ∈ l) := by
  induction l with
  | nil => intro mn mx; simp
  | cons a t ih =>
      intro mn mx
      simp only [List.foldl_cons]
      obtain ⟨h1, h2⟩ := ih (min mn a) (max mx a)
      constructor
      · rcases h1 with h | h
        · rcases min_choice mn a with hm | hm
          · exact Or.inl (by rw [h, hm])
          · exact Or.inr (by rw [h, hm]; exact List.mem_cons_self a t)
        · exact Or.inr (List.mem_cons_of_mem a h)
      · rcases h2 with h | h
        · rcases max_choice mx a with hm | hm
          · exact Or.inl (by rw [h, hm])
          · exact Or.inr (by rw [h, hm]; exact List.mem_cons_self a t)
        · exact Or.inr (List.mem_cons_of_mem a h)

/-- The min-max fold result bounds its seed and every list element. -/
theorem minMaxFold_bound (l : List ℚ) : ∀ mn mx : ℚ,
    (l.foldl (fun p h => (min p.1 h, max p.2 h)) (mn, mx)).1 ≤ mn ∧
    mx ≤ (l.foldl (fun p h => (min p.1 h, max p.2 h)) (mn, mx)).2 ∧
    ∀ a ∈ l, (l.foldl (fun p h => (min p.1 h, max p.2 h)) (mn, mx)).1 ≤ a ∧
      a ≤ (l.foldl (fun p h => (min p.1 h, max p.2 h)) (mn, mx)).2 := by
  induction l with
  | nil => intro mn mx; simp
  | cons b t ih =>
      intro mn mx
      simp only [List.foldl_cons]
      obtain ⟨h1, h2, h3⟩ := ih (min mn b) (max mx b)
      refine ⟨h1.trans (min_le_left _ _), (le_max_left _ _).trans h2, ?_⟩
      intro a ha
      rcases List.mem_cons.mp ha with rfl | ha
      · exact ⟨h1.trans (min_le_right _ _), (le_max_right _ _).trans h2⟩
      · exact h3 a ha

/-- C9: a HeightField built from a nonempty height array of N·N entries
gets a collision object world transform with identity rotation and origin
exactly ((x+0.5)·triSize·(N−1), (y+0.5)·triSize·(N−1), (min+max)/2), with
min and max ranging over the entries of the array. -/
theorem heightField_transform_spec (heights : List ℚ) (x y : ℤ) (triSize : ℚ)
    (N : ℕ) (hlen : heights.length = N * N) (hN : 1 ≤ N) :
    (heightFieldTransform heights x y triSize N).rotation = Quat.identity ∧
    (heightFieldTransform heights x y triSize N).origin.x =
      ((x : ℚ) + 1 / 2) * triSize * ((N : ℚ) - 1) ∧
    (heightFieldTransform heights x y triSize N).origin.y =
      ((y : ℚ) + 1 / 2) * triSize * ((N : ℚ) - 1) ∧
    ∃ mn mx : ℚ, mn ∈ heights ∧ mx ∈ heights ∧
      (∀ a ∈ heights, mn ≤ a ∧ a ≤ mx) ∧
      (heightFieldTransform heights x y triSize N).origin.z = (mn + mx) / 2 := by
  cases heights with
  | nil =>
      exfalso
      exact (Nat.pos_iff_ne_zero.mp (Nat.mul_pos hN hN)) hlen.symm
  | cons a t =>
      refine ⟨rfl, rfl, rfl, (minMaxHeights a t).1, (minMaxHeights a t).2,
        ?_, ?_, ?_, ?_⟩
      · rcases (minMaxFold_mem t a a).1 with h | h
        · rw [show (minMaxHeights a t).1 = a from h]
          exact List.mem_cons_self a t
        · exact List.mem_cons_of_mem a h
      · rcases (minMaxFold_mem t a a).2 with h | h
        · rw [show (minMaxHeights a t).2 = a from h]
          exact List.mem_cons_self a t
        · exact List.mem_cons_of_mem a h
      · intro b hb
        rcases List.mem_cons.mp hb with rfl | hb
        · exact ⟨(minMaxFold_bound t b b).1, (minMaxFold_bound t b b).2.1⟩
        · exact (minMaxFold_bound t a a).2.2 b hb
      · show ((minMaxHeights a t).2 + (minMaxHeights a t).1) / 2 =
          ((minMaxHeights a t).1 + (minMaxHeights a t).2) / 2
        ring

/-- C9 witness: the tile built from heights (1, 5, 3, 2) on a 2×2 grid at
tile coordinates (0, 0) with triangle size 1. -/
theorem heightField_transform_spec_witness :
    ([(1 : ℚ), 5, 3, 2].length = 2 * 2 ∧ (1 : ℕ) ≤ 2) ∧
    ((heightFieldTransform [1, 5, 3, 2] 0 0 1 2).rotation = Quat.identity ∧
      (heightFieldTransform [1, 5, 3, 2] 0 0 1 2).origin.x =
        (((0 : ℤ) : ℚ) + 1 / 2) * 1 * (((2 : ℕ) : ℚ) - 1) ∧
      (heightFieldTransform [1, 5, 3, 2] 0 0 1 2).origin.y =
        (((0 : ℤ) : ℚ) + 1 / 2) * 1 * (((2 : ℕ) : ℚ) - 1) ∧
      ∃ mn mx : ℚ, mn ∈ [(1 : ℚ), 5, 3, 2] ∧ mx ∈ [(1 : ℚ), 5, 3, 2] ∧
        (∀ a ∈ [(1 : ℚ), 5, 3, 2], mn ≤ a ∧ a ≤ mx) ∧
        (heightFieldTransform [1, 5, 3, 2] 0 0 1 2).origin.z = (mn + mx) / 2) :=
  ⟨⟨rfl, by norm_num⟩, heightField_transform_spec [1, 5, 3, 2] 0 0 1 2 rfl
    (by norm_num)⟩

end MWPhysics
